import Mathlib

/-!
Verification development for the `ucla-cli` scraping pipeline
(`src/ucla_cli/__main__.py` and `src/ucla_cli/section_details.py`).

The Python code is shallowly embedded: BeautifulSoup DOM queries are
modelled by small structural types that record exactly the facts the code
reads from the page (classes, text, anchors, sibling order), network
collaborators (`requests`, `get_page_content`) are modelled as functions
`String → Option ...`, and Python dict fields that may be `None`/absent
are modelled as `Option String` with Python truthiness made explicit.
Python string primitives (`strip`, `startswith`, `split`, `in`) are
modelled by structural recursion over the string's character list so
that every definition evaluates inside the kernel.
-/

/-- Python truthiness of an optional string field of a record dict:
`None` and `""` are falsy, every other string is truthy. -/
def truthy : Option String → Bool
  | none => false
  | some s => s != ""

/-- Python's `str.strip()` (and BeautifulSoup's `get_text(strip=True)`
on the modelled single-text elements): drop whitespace from both ends. -/
def pyStrip (s : String) : String :=
  ⟨(((s.data.dropWhile Char.isWhitespace).reverse.dropWhile Char.isWhitespace).reverse)⟩

/-- Python's `str.startswith(pre)`. -/
def pyStartsWith (s pre : String) : Bool :=
  pre.data.isPrefixOf s.data

/-- Python's `pat in hay` substring test (for non-empty `pat`),
by structural scan. -/
def charsContain (pat : List Char) : List Char → Bool
  | [] => pat.isPrefixOf []
  | c :: rest => pat.isPrefixOf (c :: rest) || charsContain pat rest

/-- Substring test on strings, modelling Python's `pat in hay`. -/
def strContains (hay pat : String) : Bool :=
  charsContain pat.data hay.data

/-- Split at the first occurrence of `sep`, as in Python's
`s.split(sep, 1)` when the separator occurs: `some (before, after)`;
`none` when `sep` does not occur. -/
def splitFirst (sep : List Char) : List Char → Option (List Char × List Char)
  | [] => none
  | c :: rest =>
      if sep.isPrefixOf (c :: rest) then some ([], (c :: rest).drop sep.length)
      else
        match splitFirst sep rest with
        | some (pre, post) => some (c :: pre, post)
        | none => none

/-! ## DOM model for a section detail page (`section_details.py`)

`get_data_for_title` walks the children of `div#section`: it finds a
`<p class="class_detail_title">` whose string equals the wanted title and
then inspects the following sibling elements.  We model that scope as a
flat list of sibling elements, each either a paragraph (its class list
and its text) or a `<ul>` whose direct `<li>` children are lists of
content items (bare strings, `<a>` tags, or other tags). -/

/-- One content item inside an `<li>`: a bare string, an `<a>` tag
(href attribute, where `""` models an absent `href`, and its stripped
text), or any other tag (modelled by its stripped text). -/
inductive LiContent where
  | txt : String → LiContent
  | anchorTag : String → String → LiContent
  | otherTag : String → LiContent
deriving DecidableEq

/-- One direct `<li>` child of the data `<ul>`. -/
structure LiItem where
  contents : List LiContent
deriving DecidableEq

/-- A sibling element inside the `div#section` scope: a paragraph
(class list, text) or an unordered list of items. -/
inductive DElem where
  | para : List String → String → DElem
  | ulist : List LiItem → DElem
deriving DecidableEq

/-- Rendering of one `<li>` content item, from the loop at
`section_details.py:56-67`: strings are stripped; `<a>` tags render as
`"<link text> [<href>]"` when an href is present (then stripped);
other tags render as their stripped text. -/
def renderPart : LiContent → String
  | LiContent.txt s => pyStrip s
  | LiContent.anchorTag href t =>
      pyStrip (if href != "" then pyStrip t ++ " [" ++ href ++ "]" else pyStrip t)
  | LiContent.otherTag t => pyStrip t

/-- Rendering of one `<li>`: the space-join of its non-empty rendered
parts (`section_details.py:69`). -/
def renderLi (li : LiItem) : String :=
  String.intercalate " " ((li.contents.map renderPart).filter (fun s => s != ""))

/-- Rendering of the whole `<ul>`: the `" ; "`-join of the non-empty
rendered items (`section_details.py:70-72`). -/
def renderUl (lis : List LiItem) : String :=
  String.intercalate " ; " ((lis.map renderLi).filter (fun s => s != ""))

/-- `title_p = scope.find('p', class_='class_detail_title', string=...)`
(`section_details.py:28`): first paragraph whose class list carries
`class_detail_title` and whose (non-empty) string strips to the exact
title; returns the list of siblings after it. -/
def findTitleRest (title : String) : List DElem → Option (List DElem)
  | [] => none
  | DElem.para cls t :: rest =>
      if cls.contains "class_detail_title" && t != "" && pyStrip t == title then
        some rest
      else findTitleRest title rest
  | DElem.ulist _ :: rest => findTitleRest title rest

/-- `next_sibling.find_next_sibling('ul')` (`section_details.py:40`):
first `<ul>` among the following siblings. -/
def firstUl : List DElem → Option (List LiItem)
  | [] => none
  | DElem.ulist lis :: _ => some lis
  | DElem.para _ _ :: rest => firstUl rest

/-- `title_p.find_next_sibling('p', class_=lambda x: x and 'section_data' in x)`
(`section_details.py:49`): first following paragraph one of whose classes
contains `section_data` as a substring. -/
def firstSectionData : List DElem → Option DElem
  | [] => none
  | DElem.para cls t :: rest =>
      if cls.any (fun c => strContains c "section_data") then some (DElem.para cls t)
      else firstSectionData rest
  | DElem.ulist _ :: rest => firstSectionData rest

/-- `text_content if text_content else "N/A (Empty)"` (`section_details.py:76`). -/
def naIfEmpty (tc : String) : String :=
  if tc == "" then "N/A (Empty)" else tc

/-- The "Class Notes" branch of `get_data_for_title`
(`section_details.py:33-46`), applied to the siblings after the title
paragraph: an immediately following `<ul>` is the data element; an
immediately following `section_data` paragraph (exact class membership,
line 38) with empty stripped text is skipped in favour of the first
`<ul>` after it (falling back to that empty paragraph when no list
follows); a non-empty `section_data` paragraph is itself the data
element. -/
def classNotesDataElem : List DElem → Option DElem
  | [] => none
  | DElem.ulist lis :: _ => some (DElem.ulist lis)
  | DElem.para cls t :: after =>
      if cls.contains "section_data" then
        if pyStrip t == "" then
          match firstUl after with
          | some lis => some (DElem.ulist lis)
          | none => some (DElem.para cls t)
        else some (DElem.para cls t)
      else none

/-- Data-element resolution of `get_data_for_title`
(`section_details.py:31-49`): the "Class Notes" special case first, then
the generic first following `section_data` paragraph. -/
def resolveDataElem (title : String) (rest : List DElem) : Option DElem :=
  match (if title == "Class Notes" then classNotesDataElem rest else none) with
  | some e => some e
  | none => firstSectionData rest

/-- Rendering of the resolved data element (`section_details.py:51-78`):
lists render item-by-item joined with `" ; "`; a paragraph's
`get_text(separator=' ', strip=True)` is modelled as `pyStrip` of its
text; an absent data element yields `"N/A"`. -/
def renderDataElem : Option DElem → String
  | none => "N/A"
  | some (DElem.ulist lis) => naIfEmpty (renderUl lis)
  | some (DElem.para _ t) => naIfEmpty (pyStrip t)

/-- `get_data_for_title` (`section_details.py:27-78`), over the modelled
sibling scope of the `div#section` element. -/
def get_data_for_title (scope : List DElem) (title : String) : String :=
  match findTitleRest title scope with
  | none => "N/A"
  | some rest => renderDataElem (resolveDataElem title rest)

/-- The six supplementary text fields returned by
`extract_section_details_from_url` — exactly the six keys of the Python
dict (`section_details.py:82-89`). -/
structure Details where
  course_description : String
  class_description_detail : String
  general_education_ge : String
  writing_ii_requirement : String
  diversity_info : String
  class_notes : String
deriving DecidableEq

/-- The all-`"N/A"` default dict (`section_details.py:82-89`). -/
def defaultDetails : Details :=
  ⟨"N/A", "N/A", "N/A", "N/A", "N/A", "N/A"⟩

/-- A parsed HTML document as consumed by the detail extractor: the only
query performed on it is `find('div', id='section')`, whose result (the
section scope's sibling elements) this records. -/
structure DetailDoc where
  sectionDiv : Option (List DElem)
deriving DecidableEq

/-- A fetched detail page (`section_details.py:103-121`):
`templateContent = none` models no `<template id='ucla-sa-soc-app'>`;
`some none` models a template whose `decode_contents()` is empty;
`some (some d)` models a template whose inner markup re-parses to `d`.
`mainDoc` is the outer document. -/
structure DetailPage where
  templateContent : Option (Option DetailDoc)
  mainDoc : DetailDoc
deriving DecidableEq

/-- Resolution of the content root (`section_details.py:103-121`): parse
the template's inner markup when the template exists with non-empty
content, look for `div#section` there, and fall back to the outer
document when the template-derived fragment has no `div#section`. -/
def resolveSectionDiv (page : DetailPage) : Option (List DElem) :=
  match page.templateContent with
  | some (some d) =>
    match d.sectionDiv with
    | some s => some s
    | none => page.mainDoc.sectionDiv
  | _ => page.mainDoc.sectionDiv

/-- The six `get_data_for_title` calls on the found section scope
(`section_details.py:129-134`). -/
def detailsOfScope (scope : List DElem) : Details :=
  { course_description := get_data_for_title scope "Course Description"
    class_description_detail := get_data_for_title scope "Class Description"
    general_education_ge := get_data_for_title scope "General Education (GE)"
    writing_ii_requirement := get_data_for_title scope "Writing II"
    diversity_info := get_data_for_title scope "Diversity"
    class_notes := get_data_for_title scope "Class Notes" }

/-- Extraction from a successfully fetched, parsed page
(`section_details.py:103-136`): locate the content root, return the
all-`"N/A"` defaults when it is absent, otherwise the six title-keyed
texts. -/
def detailsOfPage (page : DetailPage) : Details :=
  match resolveSectionDiv page with
  | none => defaultDetails
  | some scope => detailsOfScope scope

/-- `extract_section_details_from_url` (`section_details.py:81-136`).
The fetch collaborator (`get_page_content` + HTML parsing) is the
function argument; `none` models a failed fetch (all retries exhausted)
or empty page text.  An empty URL models Python's falsy `section_url`. -/
def extract_section_details_from_url (fetch : String → Option DetailPage)
    (section_url : String) : Details :=
  if section_url == "" then
    { defaultDetails with course_description := "N/A (No URL provided)" }
  else
    match fetch section_url with
    | none =>
        { defaultDetails with course_description := "N/A (Failed to fetch page content)" }
    | some page => detailsOfPage page

theorem naIfEmpty_ne_empty (tc : String) : naIfEmpty tc ≠ "" := by
  unfold naIfEmpty
  split
  · decide
  · rename_i h
    exact fun hh => h (by simp [hh])

theorem naIfEmpty_of_ne_empty (tc : String) (h : tc ≠ "") : naIfEmpty tc = tc := by
  unfold naIfEmpty
  rw [if_neg (by simpa using h)]

theorem string_append_ne_empty_left (s t : String) (h : s ≠ "") : s ++ t ≠ "" := by
  intro hc
  apply h
  have hdata := congrArg String.data hc
  simp only [String.data_append] at hdata
  rcases List.append_eq_nil.mp hdata with ⟨hs, _⟩
  exact String.ext hs

theorem renderDataElem_ne_empty (o : Option DElem) : renderDataElem o ≠ "" := by
  match o with
  | none => decide
  | some (DElem.ulist lis) => exact naIfEmpty_ne_empty _
  | some (DElem.para cls t) => exact naIfEmpty_ne_empty _

theorem get_data_for_title_ne_empty (scope : List DElem) (title : String) :
    get_data_for_title scope title ≠ "" := by
  unfold get_data_for_title
  split
  · decide
  · exact renderDataElem_ne_empty _

theorem detailsOfPage_fields_ne_empty (page : DetailPage) :
    (detailsOfPage page).course_description ≠ "" ∧
    (detailsOfPage page).class_description_detail ≠ "" ∧
    (detailsOfPage page).general_education_ge ≠ "" ∧
    (detailsOfPage page).writing_ii_requirement ≠ "" ∧
    (detailsOfPage page).diversity_info ≠ "" ∧
    (detailsOfPage page).class_notes ≠ "" := by
  unfold detailsOfPage
  split
  · exact ⟨by decide, by decide, by decide, by decide, by decide, by decide⟩
  · exact ⟨get_data_for_title_ne_empty _ _, get_data_for_title_ne_empty _ _,
      get_data_for_title_ne_empty _ _, get_data_for_title_ne_empty _ _,
      get_data_for_title_ne_empty _ _, get_data_for_title_ne_empty _ _⟩

/-- C5: for every non-empty section detail URL whose fetch fails (the
fetch collaborator returns no page text), `extract_section_details_from_url`
returns `course_description = "N/A (Failed to fetch page content)"` and
`"N/A"` for the other five fields. -/
theorem c5_fetch_failure_sentinels (fetch : String → Option DetailPage)
    (url : String) (hurl : url ≠ "") (hfail : fetch url = none) :
    extract_section_details_from_url fetch url =
      { course_description := "N/A (Failed to fetch page content)"
        class_description_detail := "N/A"
        general_education_ge := "N/A"
        writing_ii_requirement := "N/A"
        diversity_info := "N/A"
        class_notes := "N/A" } := by
  unfold extract_section_details_from_url
  rw [if_neg (by simpa using hurl), hfail]
  rfl

theorem c5_fetch_failure_sentinels_witness :
    ("https://sa.ucla.edu/x" : String) ≠ "" ∧
      extract_section_details_from_url (fun _ => none) "https://sa.ucla.edu/x" =
        { course_description := "N/A (Failed to fetch page content)"
          class_description_detail := "N/A"
          general_education_ge := "N/A"
          writing_ii_requirement := "N/A"
          diversity_info := "N/A"
          class_notes := "N/A" } :=
  ⟨by decide, c5_fetch_failure_sentinels (fun _ => none) "https://sa.ucla.edu/x"
    (by decide) rfl⟩

/-- C9: for every input URL (including the empty one) and every fetch
outcome, the record returned by `extract_section_details_from_url` has
exactly the six supplementary keys (that is the `Details` structure) and
none of the six values is the empty string. -/
theorem c9_details_keys_nonempty (fetch : String → Option DetailPage)
    (url : String) :
    (extract_section_details_from_url fetch url).course_description ≠ "" ∧
    (extract_section_details_from_url fetch url).class_description_detail ≠ "" ∧
    (extract_section_details_from_url fetch url).general_education_ge ≠ "" ∧
    (extract_section_details_from_url fetch url).writing_ii_requirement ≠ "" ∧
    (extract_section_details_from_url fetch url).diversity_info ≠ "" ∧
    (extract_section_details_from_url fetch url).class_notes ≠ "" := by
  unfold extract_section_details_from_url
  split
  · exact ⟨by decide, by decide, by decide, by decide, by decide, by decide⟩
  · split
    · exact ⟨by decide, by decide, by decide, by decide, by decide, by decide⟩
    · exact detailsOfPage_fields_ne_empty _

/-- C6: for every fetched detail page whose section scope starts with a
"Class Notes" title paragraph, then an empty-text `section_data`
paragraph, then a `<ul>` with two items, the extracted `class_notes` is
the `" ; "`-join of the two items' rendered texts (each non-empty item
rendering embedded links as `"<link text> [<href>]"` inside the item's
text, per `renderPart`/`renderLi`). -/
theorem c6_class_notes_skips_empty_para (fetch : String → Option DetailPage)
    (url : String) (page : DetailPage) (li1 li2 : LiItem) (rest : List DElem)
    (hurl : url ≠ "") (hf : fetch url = some page)
    (hdiv : resolveSectionDiv page = some
      (DElem.para ["class_detail_title"] "Class Notes" ::
       DElem.para ["section_data"] "" ::
       DElem.ulist [li1, li2] :: rest))
    (h1 : renderLi li1 ≠ "") (h2 : renderLi li2 ≠ "") :
    (extract_section_details_from_url fetch url).class_notes =
      renderLi li1 ++ " ; " ++ renderLi li2 := by
  unfold extract_section_details_from_url
  rw [if_neg (by simpa using hurl), hf]
  show (detailsOfPage page).class_notes = _
  unfold detailsOfPage
  rw [hdiv]
  show naIfEmpty (renderUl [li1, li2]) = _
  have hful : renderUl [li1, li2] = renderLi li1 ++ " ; " ++ renderLi li2 := by
    unfold renderUl
    rw [List.map_cons, List.map_cons, List.map_nil,
      List.filter_cons_of_pos (by simpa using h1),
      List.filter_cons_of_pos (by simpa using h2), List.filter_nil]
    rfl
  rw [hful]
  exact naIfEmpty_of_ne_empty _
    (string_append_ne_empty_left _ _ (string_append_ne_empty_left _ _ h1))

theorem c6_class_notes_skips_empty_para_witness :
    (("https://sa.ucla.edu/x" : String) ≠ "") ∧
      (extract_section_details_from_url
          (fun _ => some
            ⟨none, ⟨some
              [DElem.para ["class_detail_title"] "Class Notes",
               DElem.para ["section_data"] "",
               DElem.ulist
                 [⟨[LiContent.txt "First note"]⟩,
                  ⟨[LiContent.txt "See", LiContent.anchorTag "/page" "site"]⟩]]⟩⟩)
          "https://sa.ucla.edu/x").class_notes =
        renderLi ⟨[LiContent.txt "First note"]⟩ ++ " ; " ++
          renderLi ⟨[LiContent.txt "See", LiContent.anchorTag "/page" "site"]⟩ :=
  ⟨by decide,
    c6_class_notes_skips_empty_para _ "https://sa.ucla.edu/x" _
      ⟨[LiContent.txt "First note"]⟩
      ⟨[LiContent.txt "See", LiContent.anchorTag "/page" "site"]⟩ []
      (by decide) rfl rfl (by decide) (by decide)⟩

/-! ## SectionLinkIndex (`__main__.py:73-100`, `extract_section_links`) -/

/-- One stored index entry: the section label and the detail-page URL. -/
structure SLink where
  section_id : String
  section_link : String
deriving DecidableEq

/-- The anchor found inside a `cls-section` div's `hide-small`
paragraph: `href = none` models an anchor without an `href` attribute. -/
structure LinkAnchor where
  href : Option String
  text : String
deriving DecidableEq

/-- One element of class `cls-section` on a listing page, as consumed by
`extract_section_links`: its `id` attribute (`""` models an absent id)
and, when a `<p class="hide-small">` exists inside it, the first `<a>`
found in it (if any). -/
structure ClsDiv where
  divId : String
  pTag : Option (Option LinkAnchor)
deriving DecidableEq

/-- Absolutization of a section href (`__main__.py:93-94`; the same rule
appears at lines 51-53 and 205-207): site-relative paths (leading `/`)
get the known origin prefixed; every other href is kept verbatim. -/
def absolutizeHref (href : String) : String :=
  if pyStartsWith href "/" then "https://sa.ucla.edu" ++ href else href

/-- `parts = div_id.split('_'); if len(parts) < 2: continue;
class_id = parts[0]` (`__main__.py:81-84`): fewer than two `_`-parts
means no underscore at all, and `parts[0]` is everything before the
first underscore. -/
def classIdOfDivId (divId : String) : Option String :=
  if divId.data.contains '_' then some ⟨divId.data.takeWhile (fun c => c != '_')⟩
  else none

/-- Per-div processing of the `extract_section_links` loop body
(`__main__.py:77-98`): skip divs with an empty id, an id with fewer than
two `_`-parts, no `hide-small` paragraph, no anchor, or an anchor
without `href`; otherwise the key is the first `_`-part of the id and
the entry holds the trimmed link text and the absolutized href. -/
def linkOfDiv (div : ClsDiv) : Option (String × SLink) :=
  if div.divId == "" then none
  else
    match classIdOfDivId div.divId with
    | none => none
    | some class_id =>
      match div.pTag with
      | some (some ⟨some href, text⟩) =>
          some (class_id, ⟨pyStrip text, absolutizeHref href⟩)
      | _ => none

/-- Python dict assignment `section_links[class_id] = ...`: replace the
value when the key is present, else append (insertion order kept,
last-write-wins on repeats). -/
def insertEntry (m : List (String × SLink)) (k : String) (v : SLink) :
    List (String × SLink) :=
  if m.any (fun p => p.1 == k) then
    m.map (fun p => if p.1 == k then (k, v) else p)
  else m ++ [(k, v)]

/-- `extract_section_links` (`__main__.py:73-100`): fold the per-div
processing into the class-id keyed map. -/
def extract_section_links (divs : List ClsDiv) : List (String × SLink) :=
  divs.foldl (fun m div =>
    match linkOfDiv div with
    | some (k, v) => insertEntry m k v
    | none => m) []

theorem mem_insertEntry {m : List (String × SLink)} {k : String} {v : SLink}
    {p : String × SLink} (h : p ∈ insertEntry m k v) : p ∈ m ∨ p = (k, v) := by
  unfold insertEntry at h
  split at h
  · rcases List.mem_map.mp h with ⟨q, hq, hpq⟩
    by_cases hk : (q.1 == k) = true
    · right
      rw [if_pos hk] at hpq
      exact hpq.symm
    · left
      rw [if_neg hk] at hpq
      exact hpq ▸ hq
  · rcases List.mem_append.mp h with hm | hone
    · exact Or.inl hm
    · exact Or.inr (List.mem_singleton.mp hone)

theorem mem_extract_section_links_aux (divs : List ClsDiv) :
    ∀ (m : List (String × SLink)) (p : String × SLink),
      p ∈ divs.foldl (fun m div =>
        match linkOfDiv div with
        | some (k, v) => insertEntry m k v
        | none => m) m →
      p ∈ m ∨ ∃ d ∈ divs, linkOfDiv d = some p := by
  induction divs with
  | nil => intro m p h; exact Or.inl h
  | cons d ds ih =>
    intro m p h
    rw [List.foldl_cons] at h
    rcases ih _ p h with hm | ⟨d', hd', hlink⟩
    · revert hm
      cases hld : linkOfDiv d with
      | none => exact fun hm => Or.inl hm
      | some kv =>
        intro hm
        rcases mem_insertEntry hm with hm' | hp
        · exact Or.inl hm'
        · exact Or.inr ⟨d, List.mem_cons_self d ds, by rw [hld, hp]⟩
    · exact Or.inr ⟨d', List.mem_cons_of_mem d hd', hlink⟩

/-- C3 (amended): every entry stored by `extract_section_links` comes
from some div's anchor href, stored as `absolutizeHref href`: prefixed
with the origin `https://sa.ucla.edu` exactly when the href was
site-relative (leading `/`), and stored verbatim otherwise.  (The
original claim's conclusion that every stored URL is absolute fails for
relative hrefs without a leading slash — see the counterexample.) -/
theorem c3_stored_links_absolutized (divs : List ClsDiv) (p : String × SLink)
    (hp : p ∈ extract_section_links divs) :
    ∃ d ∈ divs, ∃ a href, d.pTag = some (some a) ∧ a.href = some href ∧
      p.2.section_link = absolutizeHref href := by
  rcases mem_extract_section_links_aux divs [] p hp with hm | ⟨d, hd, hlink⟩
  · exact absurd hm (List.not_mem_nil p)
  · refine ⟨d, hd, ?_⟩
    unfold linkOfDiv at hlink
    split at hlink
    · exact absurd hlink (by simp)
    · split at hlink
      · exact absurd hlink (by simp)
      · split at hlink
        · rename_i href text heq
          refine ⟨⟨some href, text⟩, href, heq, rfl, ?_⟩
          have hp2 := (Option.some.injEq _ _).mp hlink
          rw [← hp2]
        · exact absurd hlink (by simp)

theorem c3_stored_links_absolutized_witness :
    ∃ d ∈ [ClsDiv.mk "123_1" (some (some ⟨some "/x", "1A"⟩))],
      ∃ a href, d.pTag = some (some a) ∧ a.href = some href ∧
        (("123", SLink.mk "1A" "https://sa.ucla.edu/x") :
          String × SLink).2.section_link = absolutizeHref href :=
  c3_stored_links_absolutized
    [ClsDiv.mk "123_1" (some (some ⟨some "/x", "1A"⟩))]
    ("123", SLink.mk "1A" "https://sa.ucla.edu/x") (by decide)

/-- C3 (counterexample to the original claim): an anchor whose href is
relative but not site-relative (no leading `/`) is stored verbatim, so
the resulting map holds a URL that carries no scheme — it is not
absolute. -/
theorem c3_counterexample :
    ∃ p ∈ extract_section_links [ClsDiv.mk "123_1" (some (some ⟨some "foo.html", "1A"⟩))],
      (pyStartsWith p.2.section_link "http://" || pyStartsWith p.2.section_link "https://")
        = false := by decide

/-! ## LiteralModelExtractor (`__main__.py:102-118`, `extract_course_data`)

The `re.search(r"AddToCourseData\((.*),({.*})\)", ...)` match and
`json.loads` are external library calls; they are modelled as function
parameters: `matchFn` returns the two captured argument literals when
the pattern matches, `parseJson` returns the parsed JSON value (of an
abstract value type `J`) when the literal parses. -/

/-- What one `addCourse` script literal contributes
(`__main__.py:106-117`): the `(courseId, model)` pair when the pattern
matches and both captured literals parse as JSON, nothing otherwise. -/
def courseDataOfScript {J : Type} (matchFn : String → Option (String × String))
    (parseJson : String → Option J) (script : String) : Option (J × J) :=
  match matchFn script with
  | some (course_id_json, model_json) =>
    match parseJson course_id_json, parseJson model_json with
    | some course_id, some model => some (course_id, model)
    | _, _ => none
  | none => none

/-- `extract_course_data` (`__main__.py:102-118`): the loop over the
`addCourse`-containing script text nodes (given in document order),
appending one `(courseId, model)` pair per literal that matches the
pattern and whose two captured literals both parse as JSON; a failed
match or a `JSONDecodeError` skips just that literal. -/
def extract_course_data {J : Type} (matchFn : String → Option (String × String))
    (parseJson : String → Option J) (scripts : List String) : List (J × J) :=
  scripts.foldl (fun models script =>
    match matchFn script with
    | some (course_id_json, model_json) =>
      match parseJson course_id_json, parseJson model_json with
      | some course_id, some model => models ++ [(course_id, model)]
      | _, _ => models
    | none => models) []

theorem extract_course_data_foldl_eq {J : Type}
    (matchFn : String → Option (String × String)) (parseJson : String → Option J)
    (scripts : List String) :
    ∀ acc : List (J × J),
      scripts.foldl (fun models script =>
        match matchFn script with
        | some (course_id_json, model_json) =>
          match parseJson course_id_json, parseJson model_json with
          | some course_id, some model => models ++ [(course_id, model)]
          | _, _ => models
        | none => models) acc =
      acc ++ scripts.filterMap (courseDataOfScript matchFn parseJson) := by
  induction scripts with
  | nil => intro acc; simp
  | cons s ss ih =>
    intro acc
    rw [List.foldl_cons, List.filterMap_cons, ih]
    cases hm : matchFn s with
    | none => simp [courseDataOfScript, hm]
    | some pr =>
      obtain ⟨a, b⟩ := pr
      cases hpa : parseJson a with
      | none => simp [courseDataOfScript, hm, hpa]
      | some x =>
        cases hpb : parseJson b with
        | none => simp [courseDataOfScript, hm, hpa, hpb]
        | some y => simp [courseDataOfScript, hm, hpa, hpb]

/-- C8: `extract_course_data` returns, in document order, exactly one
`(courseId, model)` pair for each script literal that matches the
`AddToCourseData(<arg1>,<arg2>)` pattern and whose two captured
arguments both parse as JSON — it equals the `filterMap` of the
per-literal outcome, so a literal that fails to match or to parse is
skipped without aborting and never blocks the remaining literals. -/
theorem c8_extract_course_data_filterMap {J : Type}
    (matchFn : String → Option (String × String)) (parseJson : String → Option J)
    (scripts : List String) :
    extract_course_data matchFn parseJson scripts =
      scripts.filterMap (courseDataOfScript matchFn parseJson) := by
  unfold extract_course_data
  rw [extract_course_data_foldl_eq]
  simp

/-! ## Course title parsing (`__main__.py:352-364`) -/

/-- `course_number, course_name_part = title_full.split(" - ", 1)` with
the `ValueError` fallback `number = title_full, name = "N/A"`, followed
by `.strip()` on both (`__main__.py:357-364`). -/
def parseCourseTitle (title_full : String) : String × String :=
  match splitFirst " - ".data title_full.data with
  | some (pre, post) => (pyStrip ⟨pre⟩, pyStrip ⟨post⟩)
  | none => (pyStrip title_full, pyStrip "N/A")

/-- The per-course title step (`__main__.py:352-364`): `none` models the
`continue` taken when the title element (or its contents) is missing;
otherwise the first content string is stripped and parsed. -/
def titleStep (titleContents : Option String) : Option (String × String) :=
  match titleContents with
  | none => none
  | some t => some (parseCourseTitle (pyStrip t))

/-- C10: a course title (already stripped) that does not contain the
separator `" - "` does not cause the course to be skipped: the title
step still produces a result, with `number` the whole trimmed title and
`name` the literal `"N/A"`. -/
theorem c10_title_without_separator (t : String)
    (h : splitFirst " - ".data t.data = none) :
    parseCourseTitle t = (pyStrip t, "N/A") ∧ (titleStep (some t)).isSome = true := by
  constructor
  · unfold parseCourseTitle
    rw [h]
    show (pyStrip t, pyStrip "N/A") = (pyStrip t, "N/A")
    have hna : pyStrip "N/A" = "N/A" := by decide
    rw [hna]
  · rfl

theorem c10_title_without_separator_witness :
    parseCourseTitle "Seminar 599" = (pyStrip "Seminar 599", "N/A") ∧
      (titleStep (some "Seminar 599")).isSome = true :=
  c10_title_without_separator "Seminar 599" (by decide)

/-! ## Reconciler (`__main__.py:289-494`, `soc`)

A section record (`section_data_item`) is modelled by the projection of
the Python dict onto the fields the reconciliation steps read or write;
`Option String` fields model keys that may be absent (`none`) or hold
`None`/a string, with `truthy` giving Python truthiness.  The external
`clean_course_summary` collaborator (FieldCleaner, `ucla_cli/clean.py`,
outside the sources) is an arbitrary function parameter `Rec → Rec`. -/

/-- The per-section record handled by the reconciler loop
(`__main__.py:402-464`), projected onto the fields that the loop reads
or writes. -/
structure Rec where
  class_id : Option String := none
  section_id : Option String := none
  section_link : Option String := none
  course_description : Option String := none
  class_description_detail : Option String := none
  general_education_ge : Option String := none
  writing_ii_requirement : Option String := none
  diversity_info : Option String := none
  class_notes : Option String := none
deriving DecidableEq

/-- The SectionLinkIndex fallback (`__main__.py:403-409`): when the
row's class id is truthy and the index has an entry for it, fill
`section_id` and then `section_link` — each only when the row's own
value is falsy. -/
def applyLinkFallback (linksMap : String → Option SLink) (row : Rec) : Rec :=
  if truthy row.class_id then
    match linksMap (row.class_id.getD "") with
    | some e =>
      let r1 := if truthy row.section_id then row
                else { row with section_id := some e.section_id }
      if truthy r1.section_link then r1
      else { r1 with section_link := some e.section_link }
    | none => row
  else row

/-- `section_data_item.update(details_from_link)` (`__main__.py:440`):
`none` models the empty `details_from_link = {}` (no keys, update is a
no-op); `some d` models the full six-key dict returned by the detail
extractor. -/
def updDetails (r : Rec) : Option Details → Rec
  | none => r
  | some d =>
      { r with
        course_description := some d.course_description
        class_description_detail := some d.class_description_detail
        general_education_ge := some d.general_education_ge
        writing_ii_requirement := some d.writing_ii_requirement
        diversity_info := some d.diversity_info
        class_notes := some d.class_notes }

/-- The per-key body of the preserved-keys loop (`__main__.py:449-453`):
re-assert the pre-clean value when it was truthy; otherwise, when the
cleaned value is falsy but `details_from_link` has a truthy value for
the key, use that; otherwise keep the cleaned value. -/
def restoreField (orig cleaned det : Option String) : Option String :=
  if truthy orig then orig
  else if !truthy cleaned && truthy det then det
  else cleaned

/-- The clean-then-restore step (`__main__.py:442-453`) applied to the
cleaned record: each of the eight preserved keys is restored via
`restoreField`; `details_from_link` never holds `section_id` or
`section_link` (the detail extractor returns only the six supplementary
keys), so their `details_from_link.get(key)` is `none`. -/
def restorePreserved (origR cleanedR : Rec) (details : Option Details) : Rec :=
  { cleanedR with
    section_id := restoreField origR.section_id cleanedR.section_id none
    section_link := restoreField origR.section_link cleanedR.section_link none
    course_description :=
      restoreField origR.course_description cleanedR.course_description
        (details.map (fun d => d.course_description))
    class_description_detail :=
      restoreField origR.class_description_detail cleanedR.class_description_detail
        (details.map (fun d => d.class_description_detail))
    general_education_ge :=
      restoreField origR.general_education_ge cleanedR.general_education_ge
        (details.map (fun d => d.general_education_ge))
    writing_ii_requirement :=
      restoreField origR.writing_ii_requirement cleanedR.writing_ii_requirement
        (details.map (fun d => d.writing_ii_requirement))
    diversity_info :=
      restoreField origR.diversity_info cleanedR.diversity_info
        (details.map (fun d => d.diversity_info))
    class_notes :=
      restoreField origR.class_notes cleanedR.class_notes
        (details.map (fun d => d.class_notes)) }

/-- C2: for every pre-clean record and every record returned by the
FieldCleaner, each of the eight preserved fields that was truthy
(non-empty) before cleaning is exactly re-asserted by the post-clean
restore step — cleaning can never replace a populated preserved field
with an emptier value. -/
theorem c2_clean_then_restore (origR cleanedR : Rec) (details : Option Details) :
    (truthy origR.section_id = true →
      (restorePreserved origR cleanedR details).section_id = origR.section_id) ∧
    (truthy origR.section_link = true →
      (restorePreserved origR cleanedR details).section_link = origR.section_link) ∧
    (truthy origR.course_description = true →
      (restorePreserved origR cleanedR details).course_description = origR.course_description) ∧
    (truthy origR.class_description_detail = true →
      (restorePreserved origR cleanedR details).class_description_detail =
        origR.class_description_detail) ∧
    (truthy origR.general_education_ge = true →
      (restorePreserved origR cleanedR details).general_education_ge =
        origR.general_education_ge) ∧
    (truthy origR.writing_ii_requirement = true →
      (restorePreserved origR cleanedR details).writing_ii_requirement =
        origR.writing_ii_requirement) ∧
    (truthy origR.diversity_info = true →
      (restorePreserved origR cleanedR details).diversity_info = origR.diversity_info) ∧
    (truthy origR.class_notes = true →
      (restorePreserved origR cleanedR details).class_notes = origR.class_notes) := by
  refine ⟨?_, ?_, ?_, ?_, ?_, ?_, ?_, ?_⟩ <;>
    (intro h; simp only [restorePreserved, restoreField]; rw [if_pos h])

theorem c2_clean_then_restore_witness :
    (restorePreserved
        { class_id := some "123", section_id := some "1A",
          section_link := some "https://sa.ucla.edu/x",
          course_description := some "desc", class_description_detail := some "det",
          general_education_ge := some "ge", writing_ii_requirement := some "wr",
          diversity_info := some "div", class_notes := some "notes" }
        {} none).section_id = some "1A" ∧
    (restorePreserved
        { class_id := some "123", section_id := some "1A",
          section_link := some "https://sa.ucla.edu/x",
          course_description := some "desc", class_description_detail := some "det",
          general_education_ge := some "ge", writing_ii_requirement := some "wr",
          diversity_info := some "div", class_notes := some "notes" }
        {} none).section_link = some "https://sa.ucla.edu/x" :=
  ⟨((c2_clean_then_restore
      { class_id := some "123", section_id := some "1A",
        section_link := some "https://sa.ucla.edu/x",
        course_description := some "desc", class_description_detail := some "det",
        general_education_ge := some "ge", writing_ii_requirement := some "wr",
        diversity_info := some "div", class_notes := some "notes" }
      {} none).1 (by decide)),
   ((c2_clean_then_restore
      { class_id := some "123", section_id := some "1A",
        section_link := some "https://sa.ucla.edu/x",
        course_description := some "desc", class_description_detail := some "det",
        general_education_ge := some "ge", writing_ii_requirement := some "wr",
        diversity_info := some "div", class_notes := some "notes" }
      {} none).2.1 (by decide))⟩

/-- C7: when the index holds an entry for the row's truthy class id, the
fallback fills `section_link` (resp. `section_id`) with the entry's
value verbatim exactly when the row's own value is falsy, and leaves a
truthy own value unchanged. -/
theorem c7_fallback_only_fills_absent (m : String → Option SLink) (row : Rec)
    (e : SLink) (hcid : truthy row.class_id = true)
    (hm : m (row.class_id.getD "") = some e) :
    (truthy row.section_link = false →
      (applyLinkFallback m row).section_link = some e.section_link) ∧
    (truthy row.section_link = true →
      (applyLinkFallback m row).section_link = row.section_link) ∧
    (truthy row.section_id = false →
      (applyLinkFallback m row).section_id = some e.section_id) ∧
    (truthy row.section_id = true →
      (applyLinkFallback m row).section_id = row.section_id) := by
  refine ⟨fun h => ?_, fun h => ?_, fun h => ?_, fun h => ?_⟩ <;>
    by_cases hsid : truthy row.section_id = true <;>
    by_cases hsl : truthy row.section_link = true <;>
    simp_all [applyLinkFallback, hcid, hm]

theorem c7_fallback_only_fills_absent_witness :
    (truthy (Rec.class_id { class_id := some "123" }) = true) ∧
    ((truthy (Rec.section_link ({ class_id := some "123" } : Rec)) = false →
      (applyLinkFallback (fun _ => some ⟨"1A", "https://sa.ucla.edu/x"⟩)
        { class_id := some "123" }).section_link = some "https://sa.ucla.edu/x") ∧
     (truthy (Rec.section_id ({ class_id := some "123" } : Rec)) = false →
      (applyLinkFallback (fun _ => some ⟨"1A", "https://sa.ucla.edu/x"⟩)
        { class_id := some "123" }).section_id = some "1A")) :=
  ⟨by decide,
    (c7_fallback_only_fills_absent (fun _ => some ⟨"1A", "https://sa.ucla.edu/x"⟩)
      { class_id := some "123" } ⟨"1A", "https://sa.ucla.edu/x"⟩ (by decide) rfl).1,
    (c7_fallback_only_fills_absent (fun _ => some ⟨"1A", "https://sa.ucla.edu/x"⟩)
      { class_id := some "123" } ⟨"1A", "https://sa.ucla.edu/x"⟩ (by decide) rfl).2.2.1⟩

/-- The special-course test (`__main__.py:367`): a substring match of
any of `299, 596, 597, 598, 599` against the course number. -/
def isSpecialCourse (course_number : String) : Bool :=
  ["299", "596", "597", "598", "599"].any (fun code => strContains course_number code)

/-- One row's merge-clean-restore tail (`__main__.py:440-453`): update
the row with `details_from_link`, take `orig_section_data` as a copy of
the updated row, clean, and restore the preserved keys. -/
def finalizeRow (clean : Rec → Rec) (row : Rec) (details : Option Details) : Rec :=
  restorePreserved (updDetails row details) (clean (updDetails row details)) details

/-- The `for i, section_data_item in enumerate(course_sections)` loop of
the detailed (`course_details`) branch (`__main__.py:402-453`), carrying
the loop index, the `shared_details` cache (`none` models the empty
dict) and returning the finished records together with the number of
`extract_section_details_from_url` invocations.  Per row: link-index
fallback; if the row's `section_link` is falsy, no fetch
(`details_from_link = {}`); else if `should_fetch_details` (not a
special course's row with `i > 0`), fetch and — for a special course's
row 0 — cache the six fields; else reuse the cached `shared_details`. -/
def processRows (linksMap : String → Option SLink) (extractD : String → Details)
    (clean : Rec → Rec) (special : Bool) :
    Nat → Option Details → List Rec → List Rec × Nat
  | _, _, [] => ([], 0)
  | i, shared, r :: rest =>
    let row := applyLinkFallback linksMap r
    if !truthy row.section_link then
      let out := processRows linksMap extractD clean special (i + 1) shared rest
      (finalizeRow clean row none :: out.1, out.2)
    else if !(special && decide (i > 0)) then
      let d := extractD (row.section_link.getD "")
      let shared' := if special && i == 0 then some d else shared
      let out := processRows linksMap extractD clean special (i + 1) shared' rest
      (finalizeRow clean row (some d) :: out.1, out.2 + 1)
    else
      let out := processRows linksMap extractD clean special (i + 1) shared rest
      (finalizeRow clean row shared :: out.1, out.2)

/-- Per-course processing in the detailed branch (`__main__.py:366-453`):
classify the course number as special, then run the section loop with an
empty cache. -/
def processCourse (course_number : String) (linksMap : String → Option SLink)
    (extractD : String → Details) (clean : Rec → Rec) (rows : List Rec) :
    List Rec × Nat :=
  processRows linksMap extractD clean (isSpecialCourse course_number) 0 none rows

/-- The quiet branch's index lookup (`__main__.py:468-473`):
`class_id_from_model` must be truthy and present in the index. -/
def quietLookup (linksMap : String → Option SLink) (classId : Option String) :
    Option SLink :=
  if truthy classId then linksMap (classId.getD "") else none

/-- `data_for_summary` before the optional detail fetch
(`__main__.py:466-473`). -/
def quietData : Option SLink → Rec
  | some e => { section_id := some e.section_id, section_link := some e.section_link }
  | none => {}

/-- The quiet (`course_details = False`) per-course branch
(`__main__.py:465-487`): fill `section_id`/`section_link` from the
index when available; `if csv_export and current_section_link:` fetch
details once and merge them.  Returns the record and the number of
`extract_section_details_from_url` invocations. -/
def quietBranch (linksMap : String → Option SLink) (extractD : String → Details)
    (csv_export : Bool) (classId : Option String) : Rec × Nat :=
  if csv_export &&
      truthy ((quietLookup linksMap classId).map (fun e => e.section_link)) then
    (updDetails (quietData (quietLookup linksMap classId))
      (some (extractD
        (((quietLookup linksMap classId).map (fun e => e.section_link)).getD ""))), 1)
  else (quietData (quietLookup linksMap classId), 0)

/-- The `if course_details:` split of `soc` (`__main__.py:369` and
`465`), measured by the number of detail fetches a course causes:
`course_details = False` is exactly the `--quiet` flag
(`__main__.py:522`, `COURSE_DETAILS = not quiet`). -/
def courseStepFetchCount (course_details : Bool) (course_number : String)
    (linksMap : String → Option SLink) (extractD : String → Details)
    (clean : Rec → Rec) (rows : List Rec) (csv_export : Bool)
    (classId : Option String) : Nat :=
  if course_details then (processCourse course_number linksMap extractD clean rows).2
  else (quietBranch linksMap extractD csv_export classId).2

/-- C4 (counterexample to the original claim): with `--quiet`
(`course_details = False`) but `--csv` set and a link-index entry for
the course's class id, the quiet branch performs one detail fetch — not
zero, contradicting "quiet mode suppresses detail fetching entirely,
regardless of the other flags (including --csv)". -/
theorem c4_counterexample :
    courseStepFetchCount false "101" (fun _ => some ⟨"1A", "https://sa.ucla.edu/x"⟩)
      (fun _ => defaultDetails) (fun r => r) [] true (some "123") ≠ 0 := by decide

theorem truthy_some_iff (s : String) : truthy (some s) = true ↔ s ≠ "" := by
  simp [truthy]

/-- C4 (amended): in quiet mode (`course_details = False`) the per-course
detail-fetch count is fully characterized: when `--csv` is set and the
link index yields a non-empty section link for the course's class id,
exactly one detail fetch is performed; in every other case (no `--csv`,
no index entry, or an empty stored link) no detail fetch happens. -/
theorem c4_quiet_fetches_only_for_csv (course_number : String)
    (m : String → Option SLink) (ex : String → Details) (clean : Rec → Rec)
    (rows : List Rec) (csv_export : Bool) (classId : Option String) :
    ((csv_export = true ∧
        ∃ e, quietLookup m classId = some e ∧ e.section_link ≠ "") →
      courseStepFetchCount false course_number m ex clean rows csv_export classId = 1) ∧
    (¬(csv_export = true ∧
        ∃ e, quietLookup m classId = some e ∧ e.section_link ≠ "") →
      courseStepFetchCount false course_number m ex clean rows csv_export classId = 0) := by
  have h0 : courseStepFetchCount false course_number m ex clean rows csv_export classId
      = (quietBranch m ex csv_export classId).2 := rfl
  constructor
  · rintro ⟨hcsv, e, he, hne⟩
    have hcond : (csv_export &&
        truthy ((quietLookup m classId).map (fun e => e.section_link))) = true := by
      rw [hcsv, he]
      show (true && truthy (some e.section_link)) = true
      rw [Bool.true_and]
      exact (truthy_some_iff e.section_link).mpr hne
    rw [h0]
    unfold quietBranch
    rw [if_pos hcond]
  · intro hn
    have hncond : ¬((csv_export &&
        truthy ((quietLookup m classId).map (fun e => e.section_link))) = true) := by
      intro hc
      apply hn
      rw [Bool.and_eq_true] at hc
      obtain ⟨hcsv, hlink⟩ := hc
      refine ⟨hcsv, ?_⟩
      cases hl : quietLookup m classId with
      | none => rw [hl] at hlink; simp [truthy] at hlink
      | some e =>
        rw [hl] at hlink
        exact ⟨e, rfl, (truthy_some_iff e.section_link).mp hlink⟩
    rw [h0]
    unfold quietBranch
    rw [if_neg hncond]

theorem c4_quiet_fetches_only_for_csv_witness :
    courseStepFetchCount false "101" (fun _ => some ⟨"1A", "https://sa.ucla.edu/x"⟩)
      (fun _ => defaultDetails) (fun r => r) [] true (some "123") = 1 ∧
    courseStepFetchCount false "101" (fun _ => some ⟨"1A", "https://sa.ucla.edu/x"⟩)
      (fun _ => defaultDetails) (fun r => r) [] false (some "123") = 0 :=
  ⟨(c4_quiet_fetches_only_for_csv "101" (fun _ => some ⟨"1A", "https://sa.ucla.edu/x"⟩)
      (fun _ => defaultDetails) (fun r => r) [] true (some "123")).1
      ⟨rfl, ⟨"1A", "https://sa.ucla.edu/x"⟩, rfl, by decide⟩,
   (c4_quiet_fetches_only_for_csv "101" (fun _ => some ⟨"1A", "https://sa.ucla.edu/x"⟩)
      (fun _ => defaultDetails) (fun r => r) [] false (some "123")).2
      (fun h => absurd h.1 (by decide))⟩

/-! ## C1: the special-course shared-details rule -/

/-- The six supplementary fields of a record, as a value. -/
structure Supp where
  course_description : Option String
  class_description_detail : Option String
  general_education_ge : Option String
  writing_ii_requirement : Option String
  diversity_info : Option String
  class_notes : Option String
deriving DecidableEq

/-- Projection of a record onto its six supplementary fields. -/
def suppOf (r : Rec) : Supp :=
  ⟨r.course_description, r.class_description_detail, r.general_education_ge,
   r.writing_ii_requirement, r.diversity_info, r.class_notes⟩

/-- Python-truthiness normalization: a falsy value (`None`/absent or
`""`) counts as absent. -/
def normO (o : Option String) : Option String :=
  if truthy o then o else none

/-- Truthiness-normalized supplementary fields of a record. -/
def normSupp (r : Rec) : Supp :=
  ⟨normO r.course_description, normO r.class_description_detail,
   normO r.general_education_ge, normO r.writing_ii_requirement,
   normO r.diversity_info, normO r.class_notes⟩

/-- No supplementary field present at all. -/
def allNoneSupp : Supp := ⟨none, none, none, none, none, none⟩

/-- A record carrying none of the six supplementary keys — the shape of
every row produced by the summary extractor
(`extract_all_section_data`, `__main__.py:214-234`) and of the
synthesized error rows (`__main__.py:386-397`). -/
def noSupp (r : Rec) : Prop := suppOf r = allNoneSupp

/-- The FieldCleaner does not fabricate a supplementary value for a key
that was falsy in its input (it may drop or rewrite existing fields,
per the spec's FieldCleaner contract). -/
def noFabricate (clean : Rec → Rec) : Prop :=
  ∀ r : Rec,
    (truthy r.course_description = false →
      truthy ((clean r).course_description) = false) ∧
    (truthy r.class_description_detail = false →
      truthy ((clean r).class_description_detail) = false) ∧
    (truthy r.general_education_ge = false →
      truthy ((clean r).general_education_ge) = false) ∧
    (truthy r.writing_ii_requirement = false →
      truthy ((clean r).writing_ii_requirement) = false) ∧
    (truthy r.diversity_info = false →
      truthy ((clean r).diversity_info) = false) ∧
    (truthy r.class_notes = false →
      truthy ((clean r).class_notes) = false)

/-- All six values of a details record are non-empty strings — true of
every record `extract_section_details_from_url` returns (theorem
`c9_details_keys_nonempty`). -/
def detailsNonEmpty (d : Details) : Prop :=
  d.course_description ≠ "" ∧ d.class_description_detail ≠ "" ∧
  d.general_education_ge ≠ "" ∧ d.writing_ii_requirement ≠ "" ∧
  d.diversity_info ≠ "" ∧ d.class_notes ≠ ""

/-- The six fields of a details record as present supplementary data. -/
def suppSome (d : Details) : Supp :=
  ⟨some d.course_description, some d.class_description_detail,
   some d.general_education_ge, some d.writing_ii_requirement,
   some d.diversity_info, some d.class_notes⟩

/-- What the special-course loop does to every row of index `i > 0`
(`__main__.py:402-453` with `should_fetch_details = False`): fallback,
then either no details (falsy link) or the cached `shared_details`. -/
def finalizeTail (linksMap : String → Option SLink) (clean : Rec → Rec)
    (shared : Option Details) (r : Rec) : Rec :=
  if !truthy (applyLinkFallback linksMap r).section_link then
    finalizeRow clean (applyLinkFallback linksMap r) none
  else finalizeRow clean (applyLinkFallback linksMap r) shared

theorem truthy_none : truthy none = false := rfl

theorem suppOf_applyLinkFallback (m : String → Option SLink) (r : Rec) :
    suppOf (applyLinkFallback m r) = suppOf r := by
  unfold applyLinkFallback
  split
  · split
    · split <;> (dsimp only; split <;> rfl)
    · rfl
  · rfl

theorem normSupp_finalizeRow_none (clean : Rec → Rec) (row : Rec)
    (hnf : noFabricate clean) (h : noSupp row) :
    normSupp (finalizeRow clean row none) = allNoneSupp := by
  have h1 : row.course_description = none := congrArg Supp.course_description h
  have h2 : row.class_description_detail = none := congrArg Supp.class_description_detail h
  have h3 : row.general_education_ge = none := congrArg Supp.general_education_ge h
  have h4 : row.writing_ii_requirement = none := congrArg Supp.writing_ii_requirement h
  have h5 : row.diversity_info = none := congrArg Supp.diversity_info h
  have h6 : row.class_notes = none := congrArg Supp.class_notes h
  have hc := hnf row
  have hc1 := hc.1 (by rw [h1]; rfl)
  have hc2 := hc.2.1 (by rw [h2]; rfl)
  have hc3 := hc.2.2.1 (by rw [h3]; rfl)
  have hc4 := hc.2.2.2.1 (by rw [h4]; rfl)
  have hc5 := hc.2.2.2.2.1 (by rw [h5]; rfl)
  have hc6 := hc.2.2.2.2.2 (by rw [h6]; rfl)
  show normSupp (restorePreserved row (clean row) none) = allNoneSupp
  unfold normSupp restorePreserved restoreField normO allNoneSupp
  simp [h1, h2, h3, h4, h5, h6, hc1, hc2, hc3, hc4, hc5, hc6, truthy_none]

theorem normSupp_finalizeRow_some (clean : Rec → Rec) (row : Rec) (d : Details)
    (hd : detailsNonEmpty d) :
    normSupp (finalizeRow clean row (some d)) = suppSome d := by
  have ht1 := (truthy_some_iff d.course_description).mpr hd.1
  have ht2 := (truthy_some_iff d.class_description_detail).mpr hd.2.1
  have ht3 := (truthy_some_iff d.general_education_ge).mpr hd.2.2.1
  have ht4 := (truthy_some_iff d.writing_ii_requirement).mpr hd.2.2.2.1
  have ht5 := (truthy_some_iff d.diversity_info).mpr hd.2.2.2.2.1
  have ht6 := (truthy_some_iff d.class_notes).mpr hd.2.2.2.2.2
  unfold finalizeRow updDetails normSupp restorePreserved restoreField normO suppSome
  simp [ht1, ht2, ht3, ht4, ht5, ht6]

theorem zip_map_self_mem {α β : Type} (f : α → β) :
    ∀ (l : List α) (p : α × β), p ∈ l.zip (l.map f) → p.2 = f p.1 ∧ p.1 ∈ l := by
  intro l
  induction l with
  | nil => intro p hp; exact absurd hp (List.not_mem_nil p)
  | cons a as ih =>
    intro p hp
    rw [List.map_cons, List.zip_cons_cons] at hp
    rcases List.mem_cons.mp hp with hp0 | hpt
    · rw [hp0]
      exact ⟨rfl, List.mem_cons_self a as⟩
    · rcases ih p hpt with ⟨h1, h2⟩
      exact ⟨h1, List.mem_cons_of_mem a h2⟩

theorem processRows_tail (m : String → Option SLink) (ex : String → Details)
    (clean : Rec → Rec) :
    ∀ (rest : List Rec) (i : Nat) (shared : Option Details), 0 < i →
      processRows m ex clean true i shared rest =
        (rest.map (finalizeTail m clean shared), 0) := by
  intro rest
  induction rest with
  | nil => intro i shared _; rfl
  | cons r rs ih =>
    intro i shared hi
    by_cases hl : truthy (applyLinkFallback m r).section_link = true
    · have hcond2 : ¬((!(true && decide (i > 0))) = true) := by simp [hi]
      simp only [processRows]
      rw [if_neg (show ¬((!truthy (applyLinkFallback m r).section_link) = true) by
          rw [hl]; decide),
        if_neg hcond2]
      show (finalizeRow clean (applyLinkFallback m r) shared ::
          (processRows m ex clean true (i + 1) shared rs).1,
        (processRows m ex clean true (i + 1) shared rs).2) = _
      rw [ih (i + 1) shared (Nat.succ_pos i)]
      have hft : finalizeTail m clean shared r =
          finalizeRow clean (applyLinkFallback m r) shared := by
        unfold finalizeTail
        rw [if_neg (show ¬((!truthy (applyLinkFallback m r).section_link) = true) by
            rw [hl]; decide)]
      rw [List.map_cons, hft]
    · have hlf : truthy (applyLinkFallback m r).section_link = false :=
        Bool.eq_false_iff.mpr hl
      simp only [processRows]
      rw [if_pos (show ((!truthy (applyLinkFallback m r).section_link) = true) by
          rw [hlf]; rfl)]
      show (finalizeRow clean (applyLinkFallback m r) none ::
          (processRows m ex clean true (i + 1) shared rs).1,
        (processRows m ex clean true (i + 1) shared rs).2) = _
      rw [ih (i + 1) shared (Nat.succ_pos i)]
      have hft : finalizeTail m clean shared r =
          finalizeRow clean (applyLinkFallback m r) none := by
        unfold finalizeTail
        rw [if_pos (show ((!truthy (applyLinkFallback m r).section_link) = true) by
            rw [hlf]; rfl)]
      rw [List.map_cons, hft]

theorem processRows_head_true (m : String → Option SLink) (ex : String → Details)
    (clean : Rec → Rec) (shared : Option Details) (r : Rec) (rest : List Rec)
    (hl : truthy (applyLinkFallback m r).section_link = true) :
    processRows m ex clean true 0 shared (r :: rest) =
      (finalizeRow clean (applyLinkFallback m r)
          (some (ex ((applyLinkFallback m r).section_link.getD ""))) ::
        rest.map (finalizeTail m clean
          (some (ex ((applyLinkFallback m r).section_link.getD "")))),
       1) := by
  simp only [processRows]
  rw [if_neg (show ¬((!truthy (applyLinkFallback m r).section_link) = true) by
      rw [hl]; decide)]
  rw [if_pos (show ((!(true && decide (0 > 0))) = true) by decide)]
  show (finalizeRow clean (applyLinkFallback m r)
      (some (ex ((applyLinkFallback m r).section_link.getD ""))) ::
      (processRows m ex clean true 1
        (some (ex ((applyLinkFallback m r).section_link.getD ""))) rest).1,
    (processRows m ex clean true 1
        (some (ex ((applyLinkFallback m r).section_link.getD ""))) rest).2 + 1) = _
  rw [processRows_tail m ex clean rest 1
    (some (ex ((applyLinkFallback m r).section_link.getD ""))) Nat.one_pos]

theorem processRows_head_false (m : String → Option SLink) (ex : String → Details)
    (clean : Rec → Rec) (shared : Option Details) (r : Rec) (rest : List Rec)
    (hl : truthy (applyLinkFallback m r).section_link = false) :
    processRows m ex clean true 0 shared (r :: rest) =
      (finalizeRow clean (applyLinkFallback m r) none ::
        rest.map (finalizeTail m clean shared), 0) := by
  simp only [processRows]
  rw [if_pos (show ((!truthy (applyLinkFallback m r).section_link) = true) by
      rw [hl]; rfl)]
  show (finalizeRow clean (applyLinkFallback m r) none ::
      (processRows m ex clean true 1 shared rest).1,
    (processRows m ex clean true 1 shared rest).2) = _
  rw [processRows_tail m ex clean rest 1 shared Nat.one_pos]

/-- C1 (counterexample to the original claim): a special course (number
containing `599`) with two section rows, where the first row has a
section link and the second has none (and no class id for the index
fallback): the first final record carries the fetched supplementary
fields but the second carries none, so not every record has the same six
fields as the first. -/
theorem c1_counterexample :
    ¬ (∀ r ∈ (processCourse "CS 599" (fun _ => none)
        (fun _ => Details.mk "D1" "D2" "D3" "D4" "D5" "D6") (fun r => r)
        [{ section_link := some "https://sa.ucla.edu/x" }, ({} : Rec)]).1,
      suppOf r = suppOf (((processCourse "CS 599" (fun _ => none)
        (fun _ => Details.mk "D1" "D2" "D3" "D4" "D5" "D6") (fun r => r)
        [{ section_link := some "https://sa.ucla.edu/x" }, ({} : Rec)]).1).headD {})) := by
  decide

/-- C1 (amended): for a special course with rows produced by the summary
extractor (no supplementary fields yet), given that the FieldCleaner
does not fabricate supplementary values and that the detail extractor
returns non-empty values (theorem `c9_details_keys_nonempty`), the
section loop invokes the detail extraction exactly once when the first
row has a (post-fallback) section link and never otherwise; every final
record whose row has a post-fallback section link carries the same
(truthiness-normalized) six supplementary fields as the first final
record, and every record whose row has no section link carries none. -/
theorem c1_special_shared_details (number : String) (m : String → Option SLink)
    (ex : String → Details) (clean : Rec → Rec) (r0 : Rec) (rest : List Rec)
    (hspec : isSpecialCourse number = true)
    (hnf : noFabricate clean)
    (hex : ∀ u, detailsNonEmpty (ex u))
    (h0 : noSupp r0) (hrest : ∀ r ∈ rest, noSupp r) :
    ((processCourse number m ex clean (r0 :: rest)).2 =
        if truthy (applyLinkFallback m r0).section_link = true then 1 else 0) ∧
    ((processCourse number m ex clean (r0 :: rest)).1.length = rest.length + 1) ∧
    (∀ p ∈ (r0 :: rest).zip (processCourse number m ex clean (r0 :: rest)).1,
      (truthy (applyLinkFallback m p.1).section_link = true →
        normSupp p.2 =
          normSupp (((processCourse number m ex clean (r0 :: rest)).1).headD {})) ∧
      (truthy (applyLinkFallback m p.1).section_link = false →
        normSupp p.2 = allNoneSupp)) := by
  have hcourse : processCourse number m ex clean (r0 :: rest)
      = processRows m ex clean true 0 none (r0 :: rest) := by
    unfold processCourse
    rw [hspec]
  by_cases hl0 : truthy (applyLinkFallback m r0).section_link = true
  · have hout := hcourse.trans (processRows_head_true m ex clean none r0 rest hl0)
    have hhd : normSupp (finalizeRow clean (applyLinkFallback m r0)
        (some (ex ((applyLinkFallback m r0).section_link.getD "")))) =
        suppSome (ex ((applyLinkFallback m r0).section_link.getD "")) :=
      normSupp_finalizeRow_some clean _ _ (hex _)
    refine ⟨?_, ?_, ?_⟩
    · rw [hout, if_pos hl0]
    · rw [hout]
      simp
    · intro p hp
      rw [hout] at hp
      rw [hout]
      rw [List.zip_cons_cons] at hp
      rcases List.mem_cons.mp hp with hp0 | hpt
      · constructor
        · intro _
          rw [hp0]
          rfl
        · intro hfalse
          rw [hp0] at hfalse
          exact absurd hfalse (by rw [hl0]; decide)
      · have hmt := zip_map_self_mem _ rest p hpt
        constructor
        · intro hl
          rw [hmt.1]
          unfold finalizeTail
          rw [if_neg (show ¬((!truthy (applyLinkFallback m p.1).section_link) = true) by
              rw [hl]; decide)]
          rw [normSupp_finalizeRow_some clean _ _ (hex _)]
          exact hhd.symm
        · intro hlf
          rw [hmt.1]
          unfold finalizeTail
          rw [if_pos (show ((!truthy (applyLinkFallback m p.1).section_link) = true) by
              rw [hlf]; rfl)]
          refine normSupp_finalizeRow_none clean _ hnf ?_
          show suppOf (applyLinkFallback m p.1) = allNoneSupp
          rw [suppOf_applyLinkFallback]
          exact hrest p.1 hmt.2
  · have hlf0 : truthy (applyLinkFallback m r0).section_link = false :=
      Bool.eq_false_iff.mpr hl0
    have hout := hcourse.trans (processRows_head_false m ex clean none r0 rest hlf0)
    have hhd : normSupp (finalizeRow clean (applyLinkFallback m r0) none) =
        allNoneSupp := by
      refine normSupp_finalizeRow_none clean _ hnf ?_
      show suppOf (applyLinkFallback m r0) = allNoneSupp
      rw [suppOf_applyLinkFallback]
      exact h0
    refine ⟨?_, ?_, ?_⟩
    · rw [hout, if_neg hl0]
    · rw [hout]
      simp
    · intro p hp
      rw [hout] at hp
      rw [hout]
      rw [List.zip_cons_cons] at hp
      rcases List.mem_cons.mp hp with hp0 | hpt
      · constructor
        · intro htrue
          rw [hp0] at htrue
          exact absurd htrue hl0
        · intro _
          rw [hp0]
          exact hhd
      · have hmt := zip_map_self_mem _ rest p hpt
        have hns : noSupp (applyLinkFallback m p.1) := by
          show suppOf (applyLinkFallback m p.1) = allNoneSupp
          rw [suppOf_applyLinkFallback]
          exact hrest p.1 hmt.2
        constructor
        · intro hl
          rw [hmt.1]
          unfold finalizeTail
          rw [if_neg (show ¬((!truthy (applyLinkFallback m p.1).section_link) = true) by
              rw [hl]; decide)]
          rw [normSupp_finalizeRow_none clean _ hnf hns]
          exact hhd.symm
        · intro hlf
          rw [hmt.1]
          unfold finalizeTail
          rw [if_pos (show ((!truthy (applyLinkFallback m p.1).section_link) = true) by
              rw [hlf]; rfl)]
          exact normSupp_finalizeRow_none clean _ hnf hns

theorem c1_special_shared_details_witness :
    isSpecialCourse "599" = true ∧
    (((processCourse "599" (fun _ => none)
          (fun _ => Details.mk "D1" "D2" "D3" "D4" "D5" "D6") (fun r => r)
          [{ section_link := some "https://sa.ucla.edu/x" }]).2 =
        if truthy (applyLinkFallback (fun _ => none)
            ({ section_link := some "https://sa.ucla.edu/x" } : Rec)).section_link = true
          then 1 else 0) ∧
      ((processCourse "599" (fun _ => none)
          (fun _ => Details.mk "D1" "D2" "D3" "D4" "D5" "D6") (fun r => r)
          [{ section_link := some "https://sa.ucla.edu/x" }]).1.length =
        ([] : List Rec).length + 1) ∧
      (∀ p ∈ (({ section_link := some "https://sa.ucla.edu/x" } : Rec) ::
            ([] : List Rec)).zip
          (processCourse "599" (fun _ => none)
            (fun _ => Details.mk "D1" "D2" "D3" "D4" "D5" "D6") (fun r => r)
            [{ section_link := some "https://sa.ucla.edu/x" }]).1,
        (truthy (applyLinkFallback (fun _ => none) p.1).section_link = true →
          normSupp p.2 = normSupp (((processCourse "599" (fun _ => none)
            (fun _ => Details.mk "D1" "D2" "D3" "D4" "D5" "D6") (fun r => r)
            [{ section_link := some "https://sa.ucla.edu/x" }]).1).headD {})) ∧
        (truthy (applyLinkFallback (fun _ => none) p.1).section_link = false →
          normSupp p.2 = allNoneSupp))) :=
  ⟨by decide,
    c1_special_shared_details "599" (fun _ => none)
      (fun _ => Details.mk "D1" "D2" "D3" "D4" "D5" "D6") (fun r => r)
      { section_link := some "https://sa.ucla.edu/x" } []
      (by decide)
      (fun r => ⟨fun h => h, fun h => h, fun h => h, fun h => h, fun h => h, fun h => h⟩)
      (fun u =>
        show detailsNonEmpty (Details.mk "D1" "D2" "D3" "D4" "D5" "D6") by
          unfold detailsNonEmpty; decide)
      (by unfold noSupp; decide)
      (fun r hr => absurd hr (List.not_mem_nil r))⟩
